import Mathlib

/-!
Verification of the `please` CLI (oohlama repository).

The repository's `main.go` is embedded shallowly below.  The external
packages it imports (`please/config`, `please/models`, `please/providers`,
`please/types`) are not part of the sources; their interfaces are modelled
from the specification and passed to the embedded functions as an explicit
environment, so every theorem quantifies over all possible behaviours of
those packages.
-/

namespace OohLama

/-- Modelled from the spec: `please/types.Config` — a settings object holding
the provider name, API keys/endpoints and the default script type.  The
claims never inspect its fields, but concrete fields keep it executable. -/
structure Config where
  provider : String
  apiKeys : List (String × String)
  defaultScriptType : String
deriving Repr, DecidableEq

/-- Modelled from the spec: `please/types.ScriptRequest` — task description,
target script type, provider name and model identifier. -/
structure ScriptRequest where
  taskDescription : String
  scriptType : String
  provider : String
  model : String
deriving Repr, DecidableEq

/-- Modelled from the spec: `please/types.ScriptResponse` — generated script
text, optional explanation and echoed request metadata. -/
structure ScriptResponse where
  taskDescription : String
  model : String
  provider : String
  scriptType : String
  script : String
  explanation : String
deriving Repr, DecidableEq

/-- Modelled from the spec: a provider implementation exposes the capability
set `IsConfigured(config) → bool` and `GenerateScript(request) →
(response, error)`. -/
structure Provider where
  IsConfigured : Config → Bool
  GenerateScript : ScriptRequest → Except String ScriptResponse

/-- Modelled from the spec: the behaviours of the external packages
(`please/providers`, `please/config`, `please/models`) that `main.go` calls.
Each field is one external function; theorems quantify over the whole
environment, so nothing is assumed about these behaviours. -/
structure Env where
  newOllamaProvider : Config → Provider
  newOpenAIProvider : Config → Provider
  newAnthropicProvider : Config → Provider
  loadConfig : Except String Config
  createDefault : Config
  saveConfig : Config → Except String Unit
  determineScriptType : Config → String
  determineProvider : Config → String
  selectBestModel : Config → String → String → Except String String

/-- Observable calls made by `generateScript` on the providers package.
An empty trace means no provider was constructed and no provider method
(hence no network call) was invoked. -/
inductive Event where
  | constructProvider (name : String)
  | isConfiguredCall (name : String) (result : Bool)
  | generateScriptCall (name : String)
deriving Repr, DecidableEq

/-- The provider name an event concerns. -/
def Event.providerName : Event → String
  | .constructProvider n => n
  | .isConfiguredCall n _ => n
  | .generateScriptCall n => n

/-- The body of `generateScript` after the provider has been selected:
check `IsConfigured`, then call `GenerateScript`.  The event trace records
each call made on the provider. -/
def runProvider (provider : Provider) (cfg : Config) (request : ScriptRequest) :
    Except String ScriptResponse × List Event :=
  if provider.IsConfigured cfg then
    (provider.GenerateScript request,
      [Event.constructProvider request.provider,
       Event.isConfiguredCall request.provider true,
       Event.generateScriptCall request.provider])
  else
    (Except.error ("provider " ++ request.provider ++ " is not properly configured"),
      [Event.constructProvider request.provider,
       Event.isConfiguredCall request.provider false])

/-- Embedding of `generateScript` (main.go lines 90-109): a switch on the
request's provider name; unknown names fail before any provider is
constructed.  The Go `switch` on a string is an equality chain. -/
def generateScript (env : Env) (cfg : Config) (request : ScriptRequest) :
    Except String ScriptResponse × List Event :=
  if request.provider = "ollama" then
    runProvider (env.newOllamaProvider cfg) cfg request
  else if request.provider = "openai" then
    runProvider (env.newOpenAIProvider cfg) cfg request
  else if request.provider = "anthropic" then
    runProvider (env.newAnthropicProvider cfg) cfg request
  else
    (Except.error ("unsupported provider: " ++ request.provider), [])

/-- The provider constructor that `generateScript`'s switch selects for a
given name, `none` for an unsupported name. -/
def providerFor (env : Env) (name : String) : Option (Config → Provider) :=
  if name = "ollama" then some env.newOllamaProvider
  else if name = "openai" then some env.newOpenAIProvider
  else if name = "anthropic" then some env.newAnthropicProvider
  else none

/-- Embedding of `getFallbackModel` (main.go lines 112-121). -/
def getFallbackModel (provider : String) : String :=
  if provider = "openai" then "gpt-3.5-turbo"
  else if provider = "anthropic" then "claude-3-haiku-20240307"
  else "llama3.2"

/-- Embedding of the model-selection step of `main` (lines 63-68): on a
selection error the fallback model is substituted and execution proceeds. -/
def resolveModel (select : Config → String → String → Except String String)
    (cfg : Config) (task provider : String) : String :=
  match select cfg task provider with
  | Except.ok m => m
  | Except.error _ => getFallbackModel provider

/-- Embedding of the configuration-loading step of `main` (lines 50-56):
on a load error a default configuration is created and a save is attempted;
the second component records the attempted save's outcome, which `main`
discards. -/
def resolveConfig (env : Env) : Config × Option (Except String Unit) :=
  match env.loadConfig with
  | Except.ok cfg => (cfg, none)
  | Except.error _ =>
      let cfg := env.createDefault
      (cfg, some (env.saveConfig cfg))

/-- Embedding of the request construction of `main` (lines 47-76). -/
def buildRequest (env : Env) (cfg : Config) (args : List String) : ScriptRequest :=
  let taskDescription := String.intercalate " " args
  { taskDescription := taskDescription
    scriptType := env.determineScriptType cfg
    provider := env.determineProvider cfg
    model := resolveModel env.selectBestModel cfg taskDescription
      (env.determineProvider cfg) }

/-- The observable outcome of a run of `main`. -/
inductive MainResult where
  | aliasInstalled
  | aliasUninstalled
  | versionShown
  | helpShown
  | menuShown
  | errorExit (code : Nat) (stderrMsg : String)
  | scriptDisplayed (response : ScriptResponse)
deriving Repr, DecidableEq

/-- Embedding of the tail of `main` (lines 79-87): a generation error is
printed to stderr and the process exits with status 1; otherwise the
response is displayed. -/
def runGeneration (env : Env) (cfg : Config) (request : ScriptRequest) : MainResult :=
  match generateScript env cfg request with
  | (Except.error e, _) => MainResult.errorExit 1 ("Error: " ++ e ++ "\n")
  | (Except.ok r, _) => MainResult.scriptDisplayed r

/-- Embedding of `main` (lines 16-87).  `args` is `os.Args` without the
program name, so `len(os.Args) >= 2` is `args ≠ []` and `os.Args[1]` is the
head of `args`. -/
def mainRun (env : Env) (args : List String) : MainResult :=
  match args with
  | [] => MainResult.menuShown
  | first :: _ =>
      if first = "--install-alias" then MainResult.aliasInstalled
      else if first = "--uninstall-alias" then MainResult.aliasUninstalled
      else if first = "--version" then MainResult.versionShown
      else if first = "--help" then MainResult.helpShown
      else if first = "-h" then MainResult.helpShown
      else
        let cfg := (resolveConfig env).1
        runGeneration env cfg (buildRequest env cfg args)

/-! ### File-system model for the alias shims -/

/-- A file system is a finite map from paths to file contents, modelled as
an association list (later entries shadowed by earlier ones). -/
abbrev FileSystem := List (String × String)

/-- Overwrite (or create) the file at `path` with `content`. -/
def setFile (fs : FileSystem) (path content : String) : FileSystem :=
  (path, content) :: fs.filter (fun kv => kv.1 != path)

/-- Read the file at `path`, `none` when it does not exist. -/
def readFile (fs : FileSystem) (path : String) : Option String :=
  (fs.find? (fun kv => kv.1 == path)).map (·.2)

/-- `os.Remove`: delete the file at `path`; the second component is `true`
when the file existed (so the removal succeeded) and `false` when it did
not (`os.IsNotExist`). -/
def removeFile (fs : FileSystem) (path : String) : FileSystem × Bool :=
  match readFile fs path with
  | some _ => (fs.filter (fun kv => kv.1 != path), true)
  | none => (fs, false)

/-- Modelled from the spec: the Go standard library path helpers
`filepath.Dir` and `filepath.Join` used by the alias code; kept abstract
since the claims hold for every behaviour of them. -/
structure PathOps where
  dir : String → String
  join : String → String → String

/-- The shim contents written by `installAlias` (main.go lines 163-165):
`@echo off` followed by the quoted executable path and `%*`. -/
def batContent (execPath : String) : String :=
  "@echo off\n\"" ++ execPath ++ "\" %*\n"

/-- The outcome of `installAlias`. -/
structure InstallResult where
  fs : FileSystem
  plsCreated : Bool
  olCreated : Bool
  failed : Bool
deriving Repr, DecidableEq

/-- Embedding of `installAlias` (main.go lines 151-183): resolve the
executable path, then write `pls.bat` and `ol.bat` next to it with the same
shim contents.  In the file-system model a write always succeeds, matching
the pure-state view of `os.WriteFile` on a writable directory. -/
def installAlias (po : PathOps) (execPath : Except String String)
    (fs : FileSystem) : InstallResult :=
  match execPath with
  | Except.error _ => ⟨fs, false, false, true⟩
  | Except.ok path =>
      let d := po.dir path
      let content := batContent path
      let fs1 := setFile fs (po.join d "pls.bat") content
      let fs2 := setFile fs1 (po.join d "ol.bat") content
      ⟨fs2, true, true, false⟩

/-- What `uninstallAlias` reports for one shim file. -/
inductive RemoveReport where
  | removed
  | notFound
deriving Repr, DecidableEq

/-- The outcome of `uninstallAlias`: either the executable path could not be
resolved, or the function ran to completion and returned normally with one
report per shim file.  There is no error-exit outcome because
`uninstallAlias` never terminates the process. -/
inductive UninstallOutcome where
  | execPathError
  | done (fs : FileSystem) (plsReport olReport : RemoveReport)
deriving Repr, DecidableEq

/-- Embedding of `uninstallAlias` (main.go lines 186-222): remove `pls.bat`
and `ol.bat` next to the executable; a missing file is reported as not
found and the function continues and returns normally. -/
def uninstallAlias (po : PathOps) (execPath : Except String String)
    (fs : FileSystem) : UninstallOutcome :=
  match execPath with
  | Except.error _ => UninstallOutcome.execPathError
  | Except.ok path =>
      let d := po.dir path
      let r1 := removeFile fs (po.join d "pls.bat")
      let plsReport := if r1.2 then RemoveReport.removed else RemoveReport.notFound
      let r2 := removeFile r1.1 (po.join d "ol.bat")
      let olReport := if r2.2 then RemoveReport.removed else RemoveReport.notFound
      UninstallOutcome.done r2.1 plsReport olReport

/-! ### Concrete fixtures used to instantiate the theorems -/

/-- A provider whose configuration check returns `configured` and whose
generation always succeeds with `resp`. -/
def mkProvider (configured : Bool) (resp : ScriptResponse) : Provider :=
  { IsConfigured := fun _ => configured
    GenerateScript := fun _ => Except.ok resp }

def sampleCfg : Config :=
  { provider := "ollama", apiKeys := [], defaultScriptType := "bash" }

def sampleResponse : ScriptResponse :=
  { taskDescription := "t", model := "m", provider := "ollama"
    scriptType := "bash", script := "echo hi", explanation := "" }

def sampleEnv : Env :=
  { newOllamaProvider := fun _ => mkProvider true sampleResponse
    newOpenAIProvider := fun _ => mkProvider false sampleResponse
    newAnthropicProvider := fun _ => mkProvider false sampleResponse
    loadConfig := Except.ok sampleCfg
    createDefault := sampleCfg
    saveConfig := fun _ => Except.ok ()
    determineScriptType := fun c => c.defaultScriptType
    determineProvider := fun c => c.provider
    selectBestModel := fun _ _ _ => Except.ok "llama3.2" }

def sampleReq : ScriptRequest :=
  { taskDescription := "t", scriptType := "bash", provider := "ollama", model := "m" }

/-! ### Claims -/

/-- C1: for every provider name not in {"ollama", "openai", "anthropic"},
`generateScript` returns the "unsupported provider" error and its event
trace is empty: no provider instance is constructed, `IsConfigured` is not
called and `GenerateScript` is not invoked, for every possible behaviour of
the providers package. -/
theorem generateScript_unsupported (env : Env) (cfg : Config)
    (request : ScriptRequest)
    (h1 : request.provider ≠ "ollama") (h2 : request.provider ≠ "openai")
    (h3 : request.provider ≠ "anthropic") :
    generateScript env cfg request =
      (Except.error ("unsupported provider: " ++ request.provider), []) := by
  simp [generateScript, h1, h2, h3]

/-- Witness for C1 at the concrete provider name "gemini". -/
theorem generateScript_unsupported_witness :
    generateScript sampleEnv sampleCfg
        { taskDescription := "t", scriptType := "bash", provider := "gemini", model := "m" } =
      (Except.error ("unsupported provider: " ++ "gemini"), []) :=
  generateScript_unsupported sampleEnv sampleCfg _
    (by decide) (by decide) (by decide)

/-- C2: for a supported provider name whose selected provider reports
`IsConfigured = false`, `generateScript` returns the "not properly
configured" error and the event trace contains the construction and the
`IsConfigured` call but no `GenerateScript` call. -/
theorem generateScript_not_configured (env : Env) (cfg : Config)
    (request : ScriptRequest) (mk : Config → Provider)
    (hmk : providerFor env request.provider = some mk)
    (hconf : (mk cfg).IsConfigured cfg = false) :
    generateScript env cfg request =
      (Except.error ("provider " ++ request.provider ++ " is not properly configured"),
        [Event.constructProvider request.provider,
         Event.isConfiguredCall request.provider false]) := by
  unfold providerFor at hmk
  unfold generateScript
  split_ifs at hmk ⊢ with h1 h2 h3
  · obtain rfl : env.newOllamaProvider = mk := by injection hmk
    simp [runProvider, hconf]
  · obtain rfl : env.newOpenAIProvider = mk := by injection hmk
    simp [runProvider, hconf]
  · obtain rfl : env.newAnthropicProvider = mk := by injection hmk
    simp [runProvider, hconf]

/-- Witness for C2 at the concrete provider name "openai", which
`sampleEnv` leaves unconfigured. -/
theorem generateScript_not_configured_witness :
    generateScript sampleEnv sampleCfg
        { taskDescription := "t", scriptType := "bash", provider := "openai", model := "m" } =
      (Except.error ("provider " ++ "openai" ++ " is not properly configured"),
        [Event.constructProvider "openai",
         Event.isConfiguredCall "openai" false]) :=
  generateScript_not_configured sampleEnv sampleCfg _
    sampleEnv.newOpenAIProvider rfl rfl

/-- C3: whenever model auto-selection returns an error, the model resolves
(without failing) to "gpt-3.5-turbo" for provider "openai",
"claude-3-haiku-20240307" for "anthropic", and "llama3.2" for every other
provider string. -/
theorem resolveModel_fallback_on_error
    (select : Config → String → String → Except String String)
    (cfg : Config) (task provider e : String)
    (h : select cfg task provider = Except.error e) :
    resolveModel select cfg task provider =
      (if provider = "openai" then "gpt-3.5-turbo"
       else if provider = "anthropic" then "claude-3-haiku-20240307"
       else "llama3.2") := by
  unfold resolveModel
  rw [h]
  rfl

/-- Witness for C3 at provider "openai" with a failing selector. -/
theorem resolveModel_fallback_on_error_witness :
    resolveModel (fun _ _ _ => Except.error "no match") sampleCfg "t" "openai" =
      (if "openai" = "openai" then "gpt-3.5-turbo"
       else if "openai" = "anthropic" then "claude-3-haiku-20240307"
       else "llama3.2") :=
  resolveModel_fallback_on_error _ sampleCfg "t" "openai" "no match" rfl

/-- C4: whenever `generateScript` returns an error, `main` prints
"Error: …" to stderr and exits with status 1; the response-display step is
never reached (the outcome is `errorExit`, not `scriptDisplayed`). -/
theorem main_error_exit (env : Env) (first : String) (rest : List String)
    (h1 : first ≠ "--install-alias") (h2 : first ≠ "--uninstall-alias")
    (h3 : first ≠ "--version") (h4 : first ≠ "--help") (h5 : first ≠ "-h")
    (e : String) (evs : List Event)
    (hgen : generateScript env (resolveConfig env).1
        (buildRequest env (resolveConfig env).1 (first :: rest)) =
      (Except.error e, evs)) :
    mainRun env (first :: rest) =
      MainResult.errorExit 1 ("Error: " ++ e ++ "\n") := by
  simp only [mainRun, h1, h2, h3, h4, h5, if_false, if_neg]
  rw [runGeneration, hgen]

/-- An environment whose configuration selects a provider name that
`generateScript` does not support. -/
def sampleEnvBadProvider : Env :=
  { sampleEnv with determineProvider := fun _ => "gemini" }

/-- Witness for C4: with provider "gemini" the run exits with status 1 and
the "unsupported provider" message. -/
theorem main_error_exit_witness :
    mainRun sampleEnvBadProvider ["do", "something"] =
      MainResult.errorExit 1 ("Error: " ++ "unsupported provider: gemini" ++ "\n") :=
  main_error_exit sampleEnvBadProvider "do" ["something"]
    (by decide) (by decide) (by decide) (by decide) (by decide)
    "unsupported provider: gemini" [] rfl

/-- C5: every successful `ScriptResponse` is produced by exactly the
provider implementation that `generateScript`'s switch associates with the
request's provider name, and every event in the trace concerns that
provider name — no request is served by a different or fallback provider. -/
theorem response_from_named_provider (env : Env) (cfg : Config)
    (request : ScriptRequest) (resp : ScriptResponse) (evs : List Event)
    (h : generateScript env cfg request = (Except.ok resp, evs)) :
    ∃ mk, providerFor env request.provider = some mk ∧
      (mk cfg).GenerateScript request = Except.ok resp ∧
      ∀ ev ∈ evs, ev.providerName = request.provider := by
  unfold generateScript at h
  unfold providerFor
  split_ifs at h ⊢ with h1 h2 h3
  · refine ⟨env.newOllamaProvider, rfl, ?_⟩
    unfold runProvider at h
    by_cases hc : (env.newOllamaProvider cfg).IsConfigured cfg <;> simp [hc] at h
    obtain ⟨hresp, hevs⟩ := h
    subst hevs
    simp [hresp, Event.providerName]
  · refine ⟨env.newOpenAIProvider, rfl, ?_⟩
    unfold runProvider at h
    by_cases hc : (env.newOpenAIProvider cfg).IsConfigured cfg <;> simp [hc] at h
    obtain ⟨hresp, hevs⟩ := h
    subst hevs
    simp [hresp, Event.providerName]
  · refine ⟨env.newAnthropicProvider, rfl, ?_⟩
    unfold runProvider at h
    by_cases hc : (env.newAnthropicProvider cfg).IsConfigured cfg <;> simp [hc] at h
    obtain ⟨hresp, hevs⟩ := h
    subst hevs
    simp [hresp, Event.providerName]
  · exact absurd h (by simp)

/-- Witness for C5: `sampleEnv`'s configured Ollama provider serves a
request naming "ollama". -/
theorem response_from_named_provider_witness :
    ∃ mk, providerFor sampleEnv sampleReq.provider = some mk ∧
      (mk sampleCfg).GenerateScript sampleReq = Except.ok sampleResponse ∧
      ∀ ev ∈ [Event.constructProvider "ollama",
        Event.isConfiguredCall "ollama" true,
        Event.generateScriptCall "ollama"],
        ev.providerName = sampleReq.provider :=
  response_from_named_provider sampleEnv sampleCfg sampleReq sampleResponse _ rfl

/-- C6: when loading the configuration fails, `main` uses the freshly
created default configuration, attempts to save it, and the save's outcome
is discarded: the run's result is the same for every possible `Save`
behaviour. -/
theorem default_config_save_ignored (env : Env) (e : String)
    (s : Config → Except String Unit) (args : List String)
    (hload : env.loadConfig = Except.error e) :
    (resolveConfig env).1 = env.createDefault ∧
    (resolveConfig env).2 = some (env.saveConfig env.createDefault) ∧
    mainRun { env with saveConfig := s } args = mainRun env args := by
  refine ⟨?_, ?_, ?_⟩
  · simp [resolveConfig, hload]
  · simp [resolveConfig, hload]
  · cases args with
    | nil => rfl
    | cons first rest =>
        simp only [mainRun]
        split_ifs <;> try rfl
        simp only [resolveConfig, hload]
        rfl

/-- An environment whose configuration load fails. -/
def sampleEnvLoadFail : Env :=
  { sampleEnv with loadConfig := Except.error "no config file" }

/-- Witness for C6: a failing load with a failing save still yields the
default configuration and the same run result. -/
theorem default_config_save_ignored_witness :
    (resolveConfig sampleEnvLoadFail).1 = sampleEnvLoadFail.createDefault ∧
    (resolveConfig sampleEnvLoadFail).2 =
      some (sampleEnvLoadFail.saveConfig sampleEnvLoadFail.createDefault) ∧
    mainRun { sampleEnvLoadFail with saveConfig := fun _ => Except.error "disk full" }
        ["x"] =
      mainRun sampleEnvLoadFail ["x"] :=
  default_config_save_ignored sampleEnvLoadFail "no config file"
    (fun _ => Except.error "disk full") ["x"] rfl

/-- C7: for a non-empty argument list, the constructed request's task
description is the space-joined arguments, its provider is the one
determined from the configuration, and its script type is the platform
default determined from the configuration. -/
theorem request_fields (env : Env) (cfg : Config) (args : List String)
    (h : args ≠ []) :
    (buildRequest env cfg args).taskDescription = String.intercalate " " args ∧
    (buildRequest env cfg args).provider = env.determineProvider cfg ∧
    (buildRequest env cfg args).scriptType = env.determineScriptType cfg :=
  ⟨rfl, rfl, rfl⟩

/-- Witness for C7 on the spec's example task with provider "ollama". -/
theorem request_fields_witness :
    (["create", "a", "hello", "world", "script"] : List String) ≠ [] ∧
    ((buildRequest sampleEnv sampleCfg
        ["create", "a", "hello", "world", "script"]).taskDescription =
      String.intercalate " " ["create", "a", "hello", "world", "script"] ∧
    (buildRequest sampleEnv sampleCfg
        ["create", "a", "hello", "world", "script"]).provider =
      sampleEnv.determineProvider sampleCfg ∧
    (buildRequest sampleEnv sampleCfg
        ["create", "a", "hello", "world", "script"]).scriptType =
      sampleEnv.determineScriptType sampleCfg) :=
  ⟨by decide,
   request_fields sampleEnv sampleCfg ["create", "a", "hello", "world", "script"]
     (by decide)⟩

/-- Reading a path just written returns the written contents. -/
theorem readFile_setFile_self (fs : FileSystem) (p c : String) :
    readFile (setFile fs p c) p = some c := by
  simp [readFile, setFile, List.find?]

/-- Writing to a different path does not change what a read returns. -/
theorem readFile_setFile_other (fs : FileSystem) (p q c : String) (h : q ≠ p) :
    readFile (setFile fs q c) p = readFile fs p := by
  have hne : (q == p) = false := by simp [h]
  simp only [readFile, setFile, List.find?, hne]
  congr 1
  induction fs with
  | nil => rfl
  | cons kv rest ih =>
      by_cases hq : kv.1 = q
      · have h1 : (kv.1 != q) = false := by simp [hq]
        have h2 : (kv.1 == p) = false := by simp [hq]; exact fun hc => h (hq ▸ hc)
        simp [List.filter, List.find?, h1, h2, ih]
      · have h1 : (kv.1 != q) = true := by simp [hq]
        by_cases hp : kv.1 = p
        · have h3 : (p != q) = true := by simp [Ne.symm h]
          have h4 : (kv.1 == p) = true := by simp [hp]
          simp [List.filter, List.find?, h1, h3, h4, hp]
        · have h2 : (kv.1 == p) = false := by simp [hp]
          simp [List.filter, List.find?, h1, h2, ih]

/-- C8: alias installation is idempotent: two consecutive runs of
`installAlias` from the same executable path both succeed, and after each
run `pls.bat` holds exactly the shim contents for that path, so the second
run rewrites the same bytes. -/
theorem installAlias_idempotent (po : PathOps) (path : String) (fs : FileSystem) :
    (installAlias po (Except.ok path) fs).failed = false ∧
    (installAlias po (Except.ok path)
        (installAlias po (Except.ok path) fs).fs).failed = false ∧
    readFile (installAlias po (Except.ok path) fs).fs
        (po.join (po.dir path) "pls.bat") = some (batContent path) ∧
    readFile (installAlias po (Except.ok path)
          (installAlias po (Except.ok path) fs).fs).fs
        (po.join (po.dir path) "pls.bat") = some (batContent path) := by
  have hread : ∀ gs : FileSystem,
      readFile (installAlias po (Except.ok path) gs).fs
        (po.join (po.dir path) "pls.bat") = some (batContent path) := by
    intro gs
    show readFile
      (setFile (setFile gs (po.join (po.dir path) "pls.bat") (batContent path))
        (po.join (po.dir path) "ol.bat") (batContent path))
      (po.join (po.dir path) "pls.bat") = some (batContent path)
    by_cases holp : po.join (po.dir path) "ol.bat" = po.join (po.dir path) "pls.bat"
    · rw [holp, readFile_setFile_self]
    · rw [readFile_setFile_other _ _ _ _ holp, readFile_setFile_self]
  exact ⟨rfl, rfl, hread fs, hread (installAlias po (Except.ok path) fs).fs⟩

/-- C9: uninstalling aliases that were never installed reports "not found"
for both `pls.bat` and `ol.bat`, leaves the file system unchanged, and
returns normally — `uninstallAlias` has no error-exit outcome at all. -/
theorem uninstallAlias_not_installed (po : PathOps) (path : String)
    (fs : FileSystem)
    (hpls : readFile fs (po.join (po.dir path) "pls.bat") = none)
    (hol : readFile fs (po.join (po.dir path) "ol.bat") = none) :
    uninstallAlias po (Except.ok path) fs =
      UninstallOutcome.done fs RemoveReport.notFound RemoveReport.notFound := by
  simp [uninstallAlias, removeFile, hpls, hol]

/-- Concrete path helpers for the alias witnesses. -/
def samplePathOps : PathOps :=
  { dir := fun _ => "C:/bin", join := fun d n => d ++ "/" ++ n }

/-- Witness for C9 on an empty file system. -/
theorem uninstallAlias_not_installed_witness :
    uninstallAlias samplePathOps (Except.ok "C:/bin/please.exe") [] =
      UninstallOutcome.done [] RemoveReport.notFound RemoveReport.notFound :=
  uninstallAlias_not_installed samplePathOps "C:/bin/please.exe" [] rfl rfl

/-- C10: the special commands are recognized only as the first argument:
when first, `main` returns the corresponding outcome immediately — for
every environment, so no configuration is loaded, no request is built and
no provider is contacted; when the first argument is not special, the run
proceeds to generation with a task description that space-joins all
arguments, so a special string in a later position is part of the task
description. -/
theorem special_commands_first_only (env : Env) (first : String)
    (rest : List String) :
    (first = "--install-alias" →
      mainRun env (first :: rest) = MainResult.aliasInstalled) ∧
    (first = "--uninstall-alias" →
      mainRun env (first :: rest) = MainResult.aliasUninstalled) ∧
    (first = "--version" →
      mainRun env (first :: rest) = MainResult.versionShown) ∧
    (first = "--help" →
      mainRun env (first :: rest) = MainResult.helpShown) ∧
    (first = "-h" →
      mainRun env (first :: rest) = MainResult.helpShown) ∧
    (first ≠ "--install-alias" → first ≠ "--uninstall-alias" →
      first ≠ "--version" → first ≠ "--help" → first ≠ "-h" →
      mainRun env (first :: rest) =
        runGeneration env (resolveConfig env).1
          (buildRequest env (resolveConfig env).1 (first :: rest)) ∧
      (buildRequest env (resolveConfig env).1 (first :: rest)).taskDescription =
        String.intercalate " " (first :: rest)) := by
  refine ⟨?_, ?_, ?_, ?_, ?_, ?_⟩
  · intro h; subst h; rfl
  · intro h; subst h; rfl
  · intro h; subst h; rfl
  · intro h; subst h; rfl
  · intro h; subst h; rfl
  · intro h1 h2 h3 h4 h5
    refine ⟨?_, rfl⟩
    simp [mainRun, h1, h2, h3, h4, h5]

/-- Witness for C10: "--version" first is handled immediately, while the
same string after a task word is folded into the task description. -/
theorem special_commands_first_only_witness :
    mainRun sampleEnv ["--version"] = MainResult.versionShown ∧
    mainRun sampleEnv ["task", "--version"] =
      runGeneration sampleEnv (resolveConfig sampleEnv).1
        (buildRequest sampleEnv (resolveConfig sampleEnv).1 ["task", "--version"]) ∧
    (buildRequest sampleEnv (resolveConfig sampleEnv).1
        ["task", "--version"]).taskDescription = "task --version" :=
  ⟨(special_commands_first_only sampleEnv "--version" []).2.2.1 rfl,
   ((special_commands_first_only sampleEnv "task" ["--version"]).2.2.2.2.2
      (by decide) (by decide) (by decide) (by decide) (by decide)).1,
   ((special_commands_first_only sampleEnv "task" ["--version"]).2.2.2.2.2
      (by decide) (by decide) (by decide) (by decide) (by decide)).2⟩

end OohLama
